import Mathlib

/-!
Verification of the financial-ratio computation core of `src/python.py`
(a Streamlit balance-sheet analysis app).

Modelling conventions:
* A pandas dataframe row is a `PRow`: the label column `Chỉ tiêu` and the two
  numeric columns `Năm trước` / `Năm sau`, plus the three derived columns that
  `process_financial_data` adds in place.  A column that is absent (or a cell
  that is non-numeric, for the raw columns) is `none`.
* Python floats are modelled as exact rationals `ℚ`; `ℚ` has no infinity or
  NaN, so "finite" is by typing and exact arithmetic identities are provable.
* `pd.to_numeric(col, errors := coerce).fillna(0)` is `coerceVal`: a
  non-numeric / missing cell becomes `0`.
* `Series.str.contains(pat, case=False, na=False)` on a plain (regex-free)
  pattern is case-insensitive substring containment, `strContainsCI`; the
  Unicode lowercasing covers ASCII plus every Vietnamese capital that occurs
  in the anchor terms of the source.
* `raise ValueError(...)` is `Except.error` of the message string.
-/

/-- One dataframe row.  `chiTieu` is the `Chỉ tiêu` (line-item label) column;
`namTruoc` / `namSau` are the raw `Năm trước` / `Năm sau` cells (`none` =
non-numeric or missing); the last three fields are the derived columns added
by `process_financial_data` (`none` = column not present yet). -/
structure PRow where
  chiTieu : String
  namTruoc : Option ℚ
  namSau : Option ℚ
  tocDoTangTruong : Option ℚ
  tyTrongNamTruoc : Option ℚ
  tyTrongNamSau : Option ℚ
deriving DecidableEq, Repr

/-- Unicode lowercasing for the characters that occur in the anchor terms:
ASCII `A`–`Z` plus the precomposed Vietnamese capitals of
`TỔNG CỘNG TÀI SẢN`, `TÀI SẢN NGẮN HẠN`, `NỢ NGẮN HẠN` (code points
U+1ED4, U+1ED8, U+00C0, U+1EA2, U+1EAE, U+1EA0, U+1EE2).  Models the
case-insensitive (`case=False`) matching of `pandas.Series.str.contains`. -/
def lowerChar (c : Char) : Char :=
  if c.toNat = 0x1ED4 then Char.ofNat 0x1ED5   -- Ổ → ổ
  else if c.toNat = 0x1ED8 then Char.ofNat 0x1ED9   -- Ộ → ộ
  else if c.toNat = 0xC0 then Char.ofNat 0xE0   -- À → à
  else if c.toNat = 0x1EA2 then Char.ofNat 0x1EA3   -- Ả → ả
  else if c.toNat = 0x1EAE then Char.ofNat 0x1EAF   -- Ắ → ắ
  else if c.toNat = 0x1EA0 then Char.ofNat 0x1EA1   -- Ạ → ạ
  else if c.toNat = 0x1EE2 then Char.ofNat 0x1EE3   -- Ợ → ợ
  else c.toLower

/-- Lowercase every character of a string (see `lowerChar`). -/
def strLower (s : String) : String :=
  String.mk (s.data.map lowerChar)

/-- Whether `p` is an initial segment of `s` (on character lists). -/
def startsWithL : List Char → List Char → Bool
  | [], _ => true
  | _ :: _, [] => false
  | p :: ps, c :: cs => p == c && startsWithL ps cs

/-- Whether `pat` occurs as a contiguous substring of `s` (on character
lists). -/
def occursIn (pat : List Char) : List Char → Bool
  | [] => startsWithL pat []
  | c :: cs => startsWithL pat (c :: cs) || occursIn pat cs

/-- Case-insensitive substring test: models
`label.str.contains(term, case=False, na=False)` for the regex-free anchor
terms of the source. -/
def strContainsCI (label term : String) : Bool :=
  occursIn (strLower term).data (strLower label).data

/-- Anchor term for total assets (`'TỔNG CỘNG TÀI SẢN'`, line 76). -/
def tongTaiSanTerm : String := "TỔNG CỘNG TÀI SẢN"

/-- Anchor term for current assets (`'TÀI SẢN NGẮN HẠN'`, lines 168/169). -/
def taiSanNganHanTerm : String := "TÀI SẢN NGẮN HẠN"

/-- Anchor term for current liabilities (`'NỢ NGẮN HẠN'`, lines 172/173). -/
def noNganHanTerm : String := "NỢ NGẮN HẠN"

/-- Numeric coercion of a raw cell:
`pd.to_numeric(col, errors := coerce).fillna(0)` — a non-numeric or missing
cell becomes `0` (line 66). -/
def coerceVal (v : Option ℚ) : ℚ := v.getD 0

/-- The zero-denominator substitute `1e-9` used by lines 71, 88, 89. -/
def epsilon : ℚ := 1 / 1000000000

/-- Safe divisor: `x if x != 0 else 1e-9` (lines 88–89); also the effect of
`Series.replace(0, 1e-9)` on the growth denominator (line 71). -/
def safeDivisor (x : ℚ) : ℚ := if x = 0 then epsilon else x

/-- In-place numeric coercion of the two raw columns (lines 64–66):
`df[col] = pd.to_numeric(df[col], errors := coerce).fillna(0)`. -/
def coerceCols (df : List PRow) : List PRow :=
  df.map fun r => { r with namTruoc := some (coerceVal r.namTruoc),
                           namSau := some (coerceVal r.namSau) }

/-- In-place addition of the growth column (lines 70–72):
`(namSau - namTruoc) / namTruoc.replace(0, 1e-9) * 100`. -/
def addGrowth (df : List PRow) : List PRow :=
  df.map fun r =>
    { r with tocDoTangTruong := some ((coerceVal r.namSau - coerceVal r.namTruoc)
                                        / safeDivisor (coerceVal r.namTruoc) * 100) }

/-- First row whose label contains `term` case-insensitively:
`df[df[chiTieu].str.contains(term, case=False, na=False)].iloc[0]`, i.e. a
boolean filter followed by taking the first row; `none` when the filter is
empty. -/
def findRow (term : String) (df : List PRow) : Option PRow :=
  (df.filter fun r => strContainsCI r.chiTieu term).head?

/-- In-place addition of the two composition-share columns (lines 92–93),
given the already-guarded divisors `dN1` (prior year) and `dN` (current
year). -/
def addShares (dN1 dN : ℚ) (df : List PRow) : List PRow :=
  df.map fun r => { r with
    tyTrongNamTruoc := some (coerceVal r.namTruoc / dN1 * 100),
    tyTrongNamSau := some (coerceVal r.namSau / dN * 100) }

/-- The `ValueError` message raised at line 79 when no row matches the
total-assets anchor term. -/
def missingAnchorMsg : String :=
  "Không tìm thấy chỉ tiêu \x27TỔNG CỘNG TÀI SẢN\x27."

/-- The body of `process_financial_data` (lines 58–96), in state-passing
style.  The first component is what the Python function returns (the enriched
table, or the `ValueError` it raises); the second component is the final
state of the dataframe **object the caller passed in**, which the function
mutates: the numeric columns are coerced and the growth column added before
the anchor check, and on success the returned table is that same mutated
object. -/
def processFinancialDataM (df : List PRow) :
    Except String (List PRow) × List PRow :=
  let df1 := addGrowth (coerceCols df)
  match findRow tongTaiSanTerm df1 with
  | none => (Except.error missingAnchorMsg, df1)
  | some anchor =>
      let dN1 := safeDivisor (coerceVal anchor.namTruoc)
      let dN := safeDivisor (coerceVal anchor.namSau)
      let df2 := addShares dN1 dN df1
      (Except.ok df2, df2)

/-- The value returned by (or exception raised from) `process_financial_data`
— the spec's `computeGrowthAndComposition`. -/
def processFinancialData (df : List PRow) : Except String (List PRow) :=
  (processFinancialDataM df).1

/-- The current-ratio block (lines 160–202) — the spec's
`computeCurrentRatio`.  Result is `(prior-year ratio, current-year ratio)`
with `none` for the `"N/A"` sentinel.  The four `.iloc[0]` lookups (lines
168–173) all happen before either ratio is computed, and an `IndexError`
from any of them is caught at line 199 leaving both ratios `"N/A"`; hence a
missing anchor row gives `(none, none)`.  Each period's ratio is then
guarded by its own `!= 0` test (lines 176–180).  The function is total: it
never raises. -/
def computeCurrentRatio (df : List PRow) : Option ℚ × Option ℚ :=
  match findRow taiSanNganHanTerm df, findRow noNganHanTerm df with
  | some a, some l =>
      let tsnhN := coerceVal a.namSau
      let tsnhN1 := coerceVal a.namTruoc
      let noN := coerceVal l.namSau
      let noN1 := coerceVal l.namTruoc
      ((if noN1 ≠ 0 then some (tsnhN1 / noN1) else none),
       (if noN ≠ 0 then some (tsnhN / noN) else none))
  | _, _ => (none, none)

/-! Evaluation lemmas for the case-insensitive containment tests that come up
in concrete tables (proved by kernel computation). -/

@[simp] lemma ci_tsnh_tong : strContainsCI "TÀI SẢN NGẮN HẠN" tongTaiSanTerm = false := by decide

@[simp] lemma ci_no_tong : strContainsCI "NỢ NGẮN HẠN" tongTaiSanTerm = false := by decide

@[simp] lemma ci_tong_tong : strContainsCI "TỔNG CỘNG TÀI SẢN" tongTaiSanTerm = true := by decide

@[simp] lemma ci_tsnh_tsnh : strContainsCI "TÀI SẢN NGẮN HẠN" taiSanNganHanTerm = true := by decide

@[simp] lemma ci_no_tsnh : strContainsCI "NỢ NGẮN HẠN" taiSanNganHanTerm = false := by decide

@[simp] lemma ci_tong_tsnh : strContainsCI "TỔNG CỘNG TÀI SẢN" taiSanNganHanTerm = false := by decide

@[simp] lemma ci_tsnh_no : strContainsCI "TÀI SẢN NGẮN HẠN" noNganHanTerm = false := by decide

@[simp] lemma ci_no_no : strContainsCI "NỢ NGẮN HẠN" noNganHanTerm = true := by decide

@[simp] lemma ci_tong_no : strContainsCI "TỔNG CỘNG TÀI SẢN" noNganHanTerm = false := by decide

/-! Structural lemmas about the pipeline. -/

/-- Effect of the first two in-place passes (coercion, growth column) on one
row. -/
def growRow (r : PRow) : PRow :=
  ⟨r.chiTieu, some (coerceVal r.namTruoc), some (coerceVal r.namSau),
   some ((coerceVal r.namSau - coerceVal r.namTruoc)
           / safeDivisor (coerceVal r.namTruoc) * 100),
   r.tyTrongNamTruoc, r.tyTrongNamSau⟩

/-- Effect of all three in-place passes on one row, given the two guarded
anchor divisors. -/
def enrichRow (dN1 dN : ℚ) (r : PRow) : PRow :=
  ⟨r.chiTieu, some (coerceVal r.namTruoc), some (coerceVal r.namSau),
   some ((coerceVal r.namSau - coerceVal r.namTruoc)
           / safeDivisor (coerceVal r.namTruoc) * 100),
   some (coerceVal r.namTruoc / dN1 * 100),
   some (coerceVal r.namSau / dN * 100)⟩

lemma addGrowth_coerceCols (df : List PRow) :
    addGrowth (coerceCols df) = df.map growRow := by
  simp [addGrowth, coerceCols, growRow, coerceVal, Function.comp_def]

lemma addShares_map_growRow (dN1 dN : ℚ) (df : List PRow) :
    addShares dN1 dN (df.map growRow) = df.map (enrichRow dN1 dN) := by
  simp [addShares, growRow, enrichRow, coerceVal, Function.comp_def]

lemma findRow_map_growRow (term : String) (df : List PRow) :
    findRow term (df.map growRow) = (findRow term df).map growRow := by
  have h : (fun r => strContainsCI r.chiTieu term) ∘ growRow
      = fun r => strContainsCI r.chiTieu term := by
    funext r; simp [growRow]
  simp [findRow, List.filter_map, h, List.head?_map]

/-- When no row matches the total-assets anchor, `process_financial_data`
raises the `ValueError` (and the growth/share columns are never returned). -/
lemma processErr (df : List PRow) (h : findRow tongTaiSanTerm df = none) :
    processFinancialData df = Except.error missingAnchorMsg := by
  simp only [processFinancialData, processFinancialDataM, addGrowth_coerceCols,
    findRow_map_growRow, h, Option.map_none']

/-- Characterization of a successful run of `process_financial_data`:
there is a first anchor row `a`, and the result enriches every row with the
divisors derived from `a`. -/
lemma processOk (df out : List PRow) (h : processFinancialData df = Except.ok out) :
    ∃ a, findRow tongTaiSanTerm df = some a ∧
      out = df.map (enrichRow (safeDivisor (coerceVal a.namTruoc))
                              (safeDivisor (coerceVal a.namSau))) := by
  cases hf : findRow tongTaiSanTerm df with
  | none =>
      rw [processErr df hf] at h
      exact Except.noConfusion h
  | some a =>
      refine ⟨a, rfl, ?_⟩
      simp only [processFinancialData, processFinancialDataM, addGrowth_coerceCols,
        findRow_map_growRow, hf, Option.map_some', growRow, coerceVal,
        Option.getD_some] at h
      rw [addShares_map_growRow] at h
      injection h with h
      exact h.symm

lemma findRow_eq_none_iff (term : String) (df : List PRow) :
    findRow term df = none ↔ ∀ r ∈ df, strContainsCI r.chiTieu term = false := by
  simp [findRow, List.head?_eq_none_iff, List.filter_eq_nil_iff]

/-- `findRow` returns the **first** matching row: `findRow term df = some a`
iff `df` splits as `pre ++ a :: post` with `a` matching and nothing in `pre`
matching. -/
lemma findRow_first (term : String) (df : List PRow) (a : PRow) :
    findRow term df = some a ↔
      ∃ pre post, df = pre ++ a :: post ∧ strContainsCI a.chiTieu term = true ∧
        ∀ p ∈ pre, strContainsCI p.chiTieu term = false := by
  induction df with
  | nil => simp [findRow]
  | cons r rest ih =>
      by_cases hp : strContainsCI r.chiTieu term = true
      · have hstep : findRow term (r :: rest) = some r := by
          simp [findRow, List.filter_cons, hp]
        rw [hstep]
        constructor
        · intro h
          injection h with h
          subst h
          exact ⟨[], rest, rfl, hp, by simp⟩
        · rintro ⟨pre, post, hsplit, ha, hpre⟩
          cases pre with
          | nil =>
              simp only [List.nil_append] at hsplit
              injection hsplit with h1 h2
              rw [h1]
          | cons q qre =>
              simp only [List.cons_append] at hsplit
              injection hsplit with h1 h2
              have hf2 := hpre q (List.mem_cons_self q qre)
              rw [← h1] at hf2
              rw [hf2] at hp
              exact absurd hp (by decide)
      · have hp' : strContainsCI r.chiTieu term = false := by
          simpa using hp
        have hstep : findRow term (r :: rest) = findRow term rest := by
          simp [findRow, List.filter_cons, hp']
        rw [hstep, ih]
        constructor
        · rintro ⟨pre, post, hsplit, ha, hpre⟩
          refine ⟨r :: pre, post, by rw [hsplit]; rfl, ha, ?_⟩
          intro p hpmem
          rcases List.mem_cons.mp hpmem with h1 | h2
          · exact h1 ▸ hp'
          · exact hpre p h2
        · rintro ⟨pre, post, hsplit, ha, hpre⟩
          cases pre with
          | nil =>
              simp only [List.nil_append] at hsplit
              injection hsplit with h1 h2
              rw [← h1] at ha
              rw [hp'] at ha
              exact absurd ha (by decide)
          | cons q qre =>
              simp only [List.cons_append] at hsplit
              injection hsplit with h1 h2
              exact ⟨qre, post, h2, ha, fun p hpmem => hpre p (by simp [hpmem])⟩

/-! Concrete tables used by the examples, witnesses and counterexamples. -/

/-- Row `("TÀI SẢN NGẮN HẠN", 100, 150)` — the current-assets line of the
end-to-end example, with the label the code actually anchors on. -/
def exRow0 : PRow := ⟨"TÀI SẢN NGẮN HẠN", some 100, some 150, none, none, none⟩

/-- Row `("NỢ NGẮN HẠN", 50, 0)` — current liabilities, zero in the current
year. -/
def exRow1 : PRow := ⟨"NỢ NGẮN HẠN", some 50, some 0, none, none, none⟩

/-- Row `("TỔNG CỘNG TÀI SẢN", 200, 300)` — the total-assets anchor row. -/
def exRow2 : PRow := ⟨"TỔNG CỘNG TÀI SẢN", some 200, some 300, none, none, none⟩

/-- The end-to-end example table, with the code's Vietnamese anchor labels. -/
def exTable : List PRow := [exRow0, exRow1, exRow2]

/-- Enrichment of `exRow0`: growth `(150-100)/100*100 = 50`, shares
`100/200*100 = 50` and `150/300*100 = 50`. -/
def exOut0 : PRow := ⟨"TÀI SẢN NGẮN HẠN", some 100, some 150, some 50, some 50, some 50⟩

/-- Enrichment of `exRow1`: growth `(0-50)/50*100 = -100`, shares `25` and
`0`. -/
def exOut1 : PRow := ⟨"NỢ NGẮN HẠN", some 50, some 0, some (-100), some 25, some 0⟩

/-- Enrichment of `exRow2` (the anchor row itself): growth `50`, shares
`100` and `100`. -/
def exOut2 : PRow := ⟨"TỔNG CỘNG TÀI SẢN", some 200, some 300, some 50, some 100, some 100⟩

/-- The enriched table `process_financial_data` produces from `exTable`. -/
def exOut : List PRow := [exOut0, exOut1, exOut2]

lemma processEx : processFinancialData exTable = Except.ok exOut := by
  norm_num [exTable, exRow0, exRow1, exRow2, exOut, exOut0, exOut1, exOut2,
    processFinancialData, processFinancialDataM, findRow, addGrowth, coerceCols,
    addShares, coerceVal, safeDivisor, List.filter]

lemma ratioEx : computeCurrentRatio exOut = (some 2, none) := by
  norm_num [exOut, exOut0, exOut1, exOut2, computeCurrentRatio, findRow,
    List.filter, coerceVal]

/-! Claim theorems. -/

/-- C1 (counterexample): on the spec's English-labelled example rows
`[("TOTAL CURRENT ASSETS", 100, 150), ("TOTAL CURRENT LIABILITIES", 50, 0),
("TOTAL ASSETS", 200, 300)]`, the pipeline yields no growth, share or ratio
values at all: `process_financial_data` raises the missing-anchor
`ValueError`, because no label contains the configured anchor term
`TỔNG CỘNG TÀI SẢN`. -/
theorem english_labels_fail :
    processFinancialData
      [⟨"TOTAL CURRENT ASSETS", some 100, some 150, none, none, none⟩,
       ⟨"TOTAL CURRENT LIABILITIES", some 50, some 0, none, none, none⟩,
       ⟨"TOTAL ASSETS", some 200, some 300, none, none, none⟩]
      = Except.error missingAnchorMsg := by
  apply processErr
  rw [findRow_eq_none_iff]
  intro r hr
  fin_cases hr <;> decide

/-- C1 (amended): with the code's Vietnamese anchor labels — rows
`[("TÀI SẢN NGẮN HẠN", 100, 150), ("NỢ NGẮN HẠN", 50, 0),
("TỔNG CỘNG TÀI SẢN", 200, 300)]` — `process_financial_data` followed by the
current-ratio block yields growth `50` for row 1, prior share `50` and
current share `50` for row 1, current ratio for the prior period `2`, and
`N/A` (unavailable) for the current period because liabilities are zero. -/
theorem end_to_end_vietnamese_example :
    processFinancialData exTable = Except.ok exOut ∧
    exOut0.tocDoTangTruong = some 50 ∧
    exOut0.tyTrongNamTruoc = some 50 ∧
    exOut0.tyTrongNamSau = some 50 ∧
    computeCurrentRatio exOut = (some 2, none) :=
  ⟨processEx, rfl, rfl, rfl, ratioEx⟩

/-- The single-row table used to exhibit the in-place mutation performed by
`process_financial_data`: a non-numeric prior-year cell and a numeric
current-year cell. -/
def mutTable : List PRow := [⟨"TỔNG CỘNG TÀI SẢN", none, some 300, none, none, none⟩]

/-- C2 (counterexample): `process_financial_data` is **not** free of side
effects on its argument: after the call, the dataframe object the caller
passed in has its non-numeric cell coerced to `0` and the three derived
columns added, so its final state differs from the table that was passed. -/
theorem process_mutates_argument :
    (processFinancialDataM mutTable).2 ≠ mutTable := by
  simp [processFinancialDataM, mutTable, addGrowth, coerceCols, addShares,
    findRow, List.filter, coerceVal, safeDivisor]

/-- C2 (amended): `process_financial_data` mutates the dataframe it is given
in place and, on success, returns that same mutated object rather than a
fresh table: whenever it returns `ok out`, `out` is exactly the final state
of the argument.  (At the call site, line 143, the caller passes
`df_raw.copy()`, so the original upload is preserved there; the function is
deterministic.) -/
theorem process_returns_mutated_argument (df out : List PRow)
    (h : (processFinancialDataM df).1 = Except.ok out) :
    (processFinancialDataM df).2 = out := by
  simp only [processFinancialDataM] at h ⊢
  cases hf : findRow tongTaiSanTerm (addGrowth (coerceCols df)) with
  | none =>
      rw [hf] at h
      exact Except.noConfusion h
  | some a =>
      rw [hf] at h
      simpa using h

theorem process_returns_mutated_argument_witness :
    (processFinancialDataM exTable).2 = exOut :=
  process_returns_mutated_argument exTable exOut processEx

/-- C3: if no row's label contains the total-assets anchor term
(case-insensitively), `process_financial_data` raises the `ValueError`
whose message names the missing anchor term, and returns no (partially
populated) enriched table. -/
theorem missing_anchor_errors (df : List PRow)
    (h : ∀ r ∈ df, strContainsCI r.chiTieu tongTaiSanTerm = false) :
    processFinancialData df = Except.error missingAnchorMsg ∧
    occursIn tongTaiSanTerm.data missingAnchorMsg.data = true :=
  ⟨processErr df ((findRow_eq_none_iff _ _).mpr h), by decide⟩

theorem missing_anchor_errors_witness :
    processFinancialData [⟨"TOTAL ASSETS", some 1, some 2, none, none, none⟩]
        = Except.error missingAnchorMsg ∧
    occursIn tongTaiSanTerm.data missingAnchorMsg.data = true :=
  missing_anchor_errors _ (by
    intro r hr
    fin_cases hr
    decide)

/-- C4: the current-ratio block always returns a summary (it is a total
function — the `IndexError` of a missing anchor is caught and leaves both
ratios `"N/A"`): a period's ratio is `N/A` exactly when an anchor term
matches no row or that period's matched liabilities value is zero, and is
the quotient assets/liabilities otherwise; the two periods are guarded
independently, so one being `N/A` does not affect the other. -/
theorem current_ratio_cases (df : List PRow) :
    ((findRow taiSanNganHanTerm df = none ∨ findRow noNganHanTerm df = none) →
        computeCurrentRatio df = (none, none)) ∧
    (∀ a l, findRow taiSanNganHanTerm df = some a →
        findRow noNganHanTerm df = some l →
        ((coerceVal l.namTruoc = 0 → (computeCurrentRatio df).1 = none) ∧
         (coerceVal l.namTruoc ≠ 0 →
            (computeCurrentRatio df).1 =
              some (coerceVal a.namTruoc / coerceVal l.namTruoc)) ∧
         (coerceVal l.namSau = 0 → (computeCurrentRatio df).2 = none) ∧
         (coerceVal l.namSau ≠ 0 →
            (computeCurrentRatio df).2 =
              some (coerceVal a.namSau / coerceVal l.namSau)))) := by
  constructor
  · intro h
    unfold computeCurrentRatio
    rcases h with h | h
    · rw [h]
    · rw [h]
      cases findRow taiSanNganHanTerm df <;> rfl
  · intro a l ha hl
    unfold computeCurrentRatio
    rw [ha, hl]
    refine ⟨?_, ?_, ?_, ?_⟩ <;> intro h0 <;> simp [h0]

theorem current_ratio_cases_witness :
    (computeCurrentRatio exOut).1 = some 2 ∧ (computeCurrentRatio exOut).2 = none := by
  have h := (current_ratio_cases exOut).2 exOut0 exOut1 rfl rfl
  have h1 := h.2.1 (by norm_num [exOut1, coerceVal])
  have h2 := h.2.2.1 (by norm_num [exOut1, coerceVal])
  refine ⟨h1.trans ?_, h2⟩
  norm_num [exOut0, exOut1, coerceVal]

/-- C5: for every row whose coerced prior-year value is nonzero, the
enriched table has growth exactly `(current - prior) / prior * 100`. -/
theorem growth_exact_nonzero_prior (df out : List PRow) (i : ℕ) (r : PRow)
    (hok : processFinancialData df = Except.ok out)
    (hr : df[i]? = some r)
    (hne : coerceVal r.namTruoc ≠ 0) :
    (out[i]?).bind PRow.tocDoTangTruong =
      some ((coerceVal r.namSau - coerceVal r.namTruoc)
              / coerceVal r.namTruoc * 100) := by
  obtain ⟨a, ha, rfl⟩ := processOk df out hok
  rw [List.getElem?_map, hr]
  simp [enrichRow, safeDivisor, hne]

theorem growth_exact_nonzero_prior_witness :
    (exOut[0]?).bind PRow.tocDoTangTruong =
      some ((coerceVal exRow0.namSau - coerceVal exRow0.namTruoc)
              / coerceVal exRow0.namTruoc * 100) :=
  growth_exact_nonzero_prior exTable exOut 0 exRow0 processEx rfl
    (by norm_num [exRow0, coerceVal])

/-- C6: for a row with coerced prior value `0` and current value nonzero,
the growth cell is obtained by substituting the fixed epsilon `1e-9` for the
zero denominator: it equals `current / 1e-9 * 100 = current * 10^11`, a
nonzero (and, `ℚ` being the number model, finite — there is no infinity or
NaN) value. -/
theorem growth_zero_prior_large_finite (df out : List PRow) (i : ℕ) (r : PRow)
    (hok : processFinancialData df = Except.ok out)
    (hr : df[i]? = some r)
    (h0 : coerceVal r.namTruoc = 0)
    (hne : coerceVal r.namSau ≠ 0) :
    (out[i]?).bind PRow.tocDoTangTruong =
        some (coerceVal r.namSau / epsilon * 100) ∧
    coerceVal r.namSau / epsilon * 100 = coerceVal r.namSau * 100000000000 ∧
    coerceVal r.namSau / epsilon * 100 ≠ 0 := by
  obtain ⟨a, ha, rfl⟩ := processOk df out hok
  have he : coerceVal r.namSau / epsilon * 100 = coerceVal r.namSau * 100000000000 := by
    rw [epsilon]
    field_simp
    ring
  refine ⟨?_, he, ?_⟩
  · rw [List.getElem?_map, hr]
    simp [enrichRow, safeDivisor, h0]
  · rw [he]
    exact mul_ne_zero hne (by norm_num)

/-- Single-row anchor table whose prior value is zero: growth from a zero
base. -/
def zRow : PRow := ⟨"TỔNG CỘNG TÀI SẢN", some 0, some 300, none, none, none⟩

/-- The table `[zRow]`. -/
def zTable : List PRow := [zRow]

/-- Enrichment of `zRow`: growth `300 / 1e-9 * 100 = 3·10^13`; prior share
`0 / 1e-9 * 100 = 0`; current share `300/300*100 = 100`. -/
def zOut : List PRow :=
  [⟨"TỔNG CỘNG TÀI SẢN", some 0, some 300, some 30000000000000, some 0, some 100⟩]

theorem growth_zero_prior_large_finite_witness :
    ((zOut[0]?).bind PRow.tocDoTangTruong =
        some (coerceVal zRow.namSau / epsilon * 100) ∧
     coerceVal zRow.namSau / epsilon * 100 = coerceVal zRow.namSau * 100000000000 ∧
     coerceVal zRow.namSau / epsilon * 100 ≠ 0) :=
  growth_zero_prior_large_finite zTable zOut 0 zRow
    (by norm_num [zTable, zRow, zOut, processFinancialData, processFinancialDataM,
        findRow, addGrowth, coerceCols, addShares, coerceVal, safeDivisor,
        epsilon, List.filter])
    rfl
    (by norm_num [zRow, coerceVal])
    (by norm_num [zRow, coerceVal])

/-- C7: on success, the anchor values come from the **first** row whose
label matches the total-assets term (`df = pre ++ a :: post`, nothing in
`pre` matching), each of the two divisors is guarded separately by
`safeDivisor`, and every row's shares are
`prior / safeDivisor(priorAnchor) * 100` and
`current / safeDivisor(currentAnchor) * 100`. -/
theorem shares_use_first_anchor_safe_divisors (df out : List PRow)
    (hok : processFinancialData df = Except.ok out) :
    ∃ a pre post, df = pre ++ a :: post ∧
      strContainsCI a.chiTieu tongTaiSanTerm = true ∧
      (∀ p ∈ pre, strContainsCI p.chiTieu tongTaiSanTerm = false) ∧
      ∀ (i : ℕ) (r : PRow), df[i]? = some r →
        (out[i]?).bind PRow.tyTrongNamTruoc =
          some (coerceVal r.namTruoc / safeDivisor (coerceVal a.namTruoc) * 100) ∧
        (out[i]?).bind PRow.tyTrongNamSau =
          some (coerceVal r.namSau / safeDivisor (coerceVal a.namSau) * 100) := by
  obtain ⟨a, ha, rfl⟩ := processOk df out hok
  obtain ⟨pre, post, hsplit, hma, hpre⟩ := (findRow_first _ _ _).mp ha
  refine ⟨a, pre, post, hsplit, hma, hpre, ?_⟩
  intro i r hr
  rw [List.getElem?_map, hr]
  exact ⟨by simp [enrichRow], by simp [enrichRow]⟩

theorem shares_use_first_anchor_safe_divisors_witness :
    ∃ a pre post, exTable = pre ++ a :: post ∧
      strContainsCI a.chiTieu tongTaiSanTerm = true ∧
      (∀ p ∈ pre, strContainsCI p.chiTieu tongTaiSanTerm = false) ∧
      ∀ (i : ℕ) (r : PRow), exTable[i]? = some r →
        (exOut[i]?).bind PRow.tyTrongNamTruoc =
          some (coerceVal r.namTruoc / safeDivisor (coerceVal a.namTruoc) * 100) ∧
        (exOut[i]?).bind PRow.tyTrongNamSau =
          some (coerceVal r.namSau / safeDivisor (coerceVal a.namSau) * 100) :=
  shares_use_first_anchor_safe_divisors exTable exOut processEx

@[simp] lemma ci_ab_tong :
    strContainsCI "TỔNG CỘNG TÀI SẢN (A+B)" tongTaiSanTerm = true := by decide

/-- C8 (amended): anchor lookup is case-insensitive and matches on
substring — the code's configured term is the spec's `tổng cộng tài sản` up
to case, a row labelled `TỔNG CỘNG TÀI SẢN (A+B)` is matched by it, and
such a row is the one used as the anchor whenever no earlier row's label
also matches the term (first match wins). -/
theorem anchor_match_case_insensitive_substring :
    strLower tongTaiSanTerm = "tổng cộng tài sản" ∧
    strContainsCI "TỔNG CỘNG TÀI SẢN (A+B)" tongTaiSanTerm = true ∧
    ∀ (pre post : List PRow) (r : PRow),
      r.chiTieu = "TỔNG CỘNG TÀI SẢN (A+B)" →
      (∀ p ∈ pre, strContainsCI p.chiTieu tongTaiSanTerm = false) →
      findRow tongTaiSanTerm (pre ++ r :: post) = some r := by
  refine ⟨by decide, by decide, ?_⟩
  intro pre post r hr hpre
  exact (findRow_first _ _ _).mpr ⟨pre, post, rfl, by rw [hr]; decide, hpre⟩

/-- The `(A+B)`-labelled row of the C8 example. -/
def cx8Row : PRow := ⟨"TỔNG CỘNG TÀI SẢN (A+B)", some 2, some 2, none, none, none⟩

theorem anchor_match_case_insensitive_substring_witness :
    findRow tongTaiSanTerm [cx8Row] = some cx8Row :=
  anchor_match_case_insensitive_substring.2.2 [] [] cx8Row rfl
    (fun p hp => absurd hp (List.not_mem_nil p))

/-- A row whose label also matches the anchor term and that comes first. -/
def cx8First : PRow := ⟨"TỔNG CỘNG TÀI SẢN", some 1, some 1, none, none, none⟩

/-- Two-row table in which an earlier row already matches the anchor term. -/
def cx8Table : List PRow := [cx8First, cx8Row]

/-- C8 (counterexample): in a table that contains a row labelled
`TỔNG CỘNG TÀI SẢN (A+B)` but in which an earlier row also matches the
anchor term, the `(A+B)` row is matched yet **not** used as the anchor:
lookup returns the earlier row, and the pipeline's share for the `(A+B)`
row is `2/1*100 = 200` (it would be `100` were that row its own anchor). -/
theorem anchor_first_match_overrides_label :
    cx8Row ∈ cx8Table ∧
    strContainsCI cx8Row.chiTieu tongTaiSanTerm = true ∧
    findRow tongTaiSanTerm cx8Table ≠ some cx8Row ∧
    ((processFinancialData cx8Table).toOption.bind
        fun l => (l[1]?).bind PRow.tyTrongNamTruoc) = some 200 := by
  refine ⟨by simp [cx8Table], by decide, ?_, ?_⟩
  · intro h
    have he : findRow tongTaiSanTerm cx8Table = some cx8First := rfl
    rw [he] at h
    injection h with h
    exact absurd (congrArg PRow.chiTieu h) (by decide)
  · norm_num [cx8Table, cx8First, cx8Row, processFinancialData,
      processFinancialDataM, findRow, addGrowth, coerceCols, addShares,
      coerceVal, safeDivisor, List.filter, Except.toOption]

/-- C9: a row whose coerced prior and current values are both zero gets
growth exactly `0` (not NaN, not an error): `(0 - 0) / 1e-9 * 100 = 0`. -/
theorem growth_both_zero_is_zero (df out : List PRow) (i : ℕ) (r : PRow)
    (hok : processFinancialData df = Except.ok out)
    (hr : df[i]? = some r)
    (h1 : coerceVal r.namTruoc = 0)
    (h2 : coerceVal r.namSau = 0) :
    (out[i]?).bind PRow.tocDoTangTruong = some 0 := by
  obtain ⟨a, ha, rfl⟩ := processOk df out hok
  rw [List.getElem?_map, hr]
  simp [enrichRow, h1, h2]

/-- A row with a non-numeric prior cell (coerced to `0`) and a zero current
cell. -/
def z9Row : PRow := ⟨"Khoan muc khac", none, some 0, none, none, none⟩

/-- Table pairing `z9Row` with an anchor row. -/
def z9Table : List PRow := [z9Row, exRow2]

/-- Enrichment of `z9Table`: the both-zero row gets growth `0` and shares
`0`; the anchor row gets growth `50` and shares `100`. -/
def z9Out : List PRow :=
  [⟨"Khoan muc khac", some 0, some 0, some 0, some 0, some 0⟩, exOut2]

@[simp] lemma ci_khac_tong :
    strContainsCI "Khoan muc khac" tongTaiSanTerm = false := by decide

theorem growth_both_zero_is_zero_witness :
    (z9Out[0]?).bind PRow.tocDoTangTruong = some 0 :=
  growth_both_zero_is_zero z9Table z9Out 0 z9Row
    (by norm_num [z9Table, z9Row, z9Out, exRow2, exOut2, processFinancialData,
        processFinancialDataM, findRow, addGrowth, coerceCols, addShares,
        coerceVal, safeDivisor, List.filter])
    rfl
    (by norm_num [z9Row, coerceVal])
    (by norm_num [z9Row, coerceVal])

/-- C10: on success the enriched table has the same number of rows in the
same order, each with its label unchanged, its two value columns holding the
coerced originals, and all three derived fields (growth, prior share,
current share) populated. -/
theorem process_preserves_shape (df out : List PRow)
    (hok : processFinancialData df = Except.ok out) :
    out.length = df.length ∧
    ∀ (i : ℕ) (r : PRow), df[i]? = some r → ∃ r2 : PRow,
      out[i]? = some r2 ∧
      r2.chiTieu = r.chiTieu ∧
      r2.namTruoc = some (coerceVal r.namTruoc) ∧
      r2.namSau = some (coerceVal r.namSau) ∧
      r2.tocDoTangTruong.isSome = true ∧
      r2.tyTrongNamTruoc.isSome = true ∧
      r2.tyTrongNamSau.isSome = true := by
  obtain ⟨a, ha, rfl⟩ := processOk df out hok
  refine ⟨by simp, ?_⟩
  intro i r hr
  refine ⟨enrichRow (safeDivisor (coerceVal a.namTruoc))
            (safeDivisor (coerceVal a.namSau)) r, ?_, ?_⟩
  · rw [List.getElem?_map, hr]
    rfl
  · simp [enrichRow]

theorem process_preserves_shape_witness :
    exOut.length = exTable.length ∧
    ∀ (i : ℕ) (r : PRow), exTable[i]? = some r → ∃ r2 : PRow,
      exOut[i]? = some r2 ∧
      r2.chiTieu = r.chiTieu ∧
      r2.namTruoc = some (coerceVal r.namTruoc) ∧
      r2.namSau = some (coerceVal r.namSau) ∧
      r2.tocDoTangTruong.isSome = true ∧
      r2.tyTrongNamTruoc.isSome = true ∧
      r2.tyTrongNamSau.isSome = true :=
  process_preserves_shape exTable exOut processEx
